import Mathlib

/-!
# Library lifecycle of s2n: `utils/s2n_init.c`

A shallow embedding of `s2n_init`, `s2n_cleanup` and `s2n_cleanup_atexit`.

The three functions only sequence calls to routines defined elsewhere, so the
embedding passes an explicit state that records every external call in order,
the thread-local `s2n_errno`, and the number of handlers registered with
`atexit`.  What each external routine returns is supplied by a record of
outcomes (`Ext`), one record per invocation of an API function, so every
theorem quantifies over all behaviours of the collaborators.
-/

namespace S2N

/-! ## Data model -/

/-- External routines called from `utils/s2n_init.c`, by their C names. -/
inductive Call where
  | s2n_fips_init
  | s2n_mem_init
  | getenv
  | OPENSSL_init_crypto
  | s2n_rand_init
  | s2n_cipher_suites_init
  | s2n_cipher_preferences_init
  | atexit
  | s2n_is_in_fips_mode
  | s2n_fetch_default_fips_config
  | s2n_fetch_default_config
  | s2n_rand_cleanup_thread
  | s2n_rand_cleanup
  | s2n_mem_cleanup
  | s2n_wipe_static_configs
  deriving DecidableEq, Repr

/-- Result of one call into another s2n module: the value it returns (for a
routine returning a pointer, the pointer value; for a `void` routine, unused)
and the value it stored in `s2n_errno`, if it stored one. -/
structure Outcome where
  ret : Int
  err : Option Int
  deriving DecidableEq, Repr

/-- Outcomes of the external routines during one invocation of an API function.
`getenv_USE_UNSAFE_AWSLC_ENGINE` is `none` when `getenv` returns `NULL`. -/
structure Ext where
  s2n_fips_init : Outcome
  s2n_mem_init : Outcome
  getenv_USE_UNSAFE_AWSLC_ENGINE : Option String
  OPENSSL_init_crypto : Int
  s2n_rand_init : Outcome
  s2n_cipher_suites_init : Outcome
  s2n_cipher_preferences_init : Outcome
  atexit : Int
  s2n_is_in_fips_mode : Outcome
  s2n_fetch_default_fips_config : Outcome
  s2n_fetch_default_config : Outcome
  s2n_rand_cleanup_thread : Outcome
  s2n_rand_cleanup : Outcome
  s2n_mem_cleanup : Outcome
  s2n_wipe_static_configs : Outcome
  deriving DecidableEq, Repr

/-- Compile-time parameters of the translation unit: whether
`ENABLE_UNSAFE_AWSLC_ENGINE` is defined, and the value of the enumerator
`S2N_ERR_ATEXIT` (declared in a header outside the sources at hand). -/
structure Build where
  ENABLE_UNSAFE_AWSLC_ENGINE : Bool
  S2N_ERR_ATEXIT : Int
  deriving DecidableEq, Repr

/-- Observable process state: the external calls made so far (oldest first),
the thread-local `s2n_errno`, and how many times `s2n_cleanup_atexit` has been
successfully registered with `atexit`. -/
structure State where
  trace : List Call
  s2n_errno : Int
  atexit_registered : Nat
  deriving DecidableEq, Repr

/-! ## Macros and primitive steps -/

/-- Modelled from the spec: the macro `GUARD` of `utils/s2n_safety.h`, a header
that is not among the sources.  Every step is a fallible `init` reporting
failure through its return value; in s2n the macro reads
`if ((x) < 0) return -1`.  `GUARD x` holds when the enclosing function returns
`-1` at this point. -/
abbrev GUARD (x : Int) : Prop := x < 0

/-- Call of a routine of another s2n module: it is appended to the trace and
may overwrite `s2n_errno`. -/
def call (c : Call) (o : Outcome) (s : State) : State :=
  { s with trace := s.trace ++ [c], s2n_errno := o.err.getD s.s2n_errno }

/-- Call of a routine that does not belong to s2n (`getenv`,
`OPENSSL_init_crypto`): it is appended to the trace and leaves `s2n_errno`
alone. -/
def libcall (c : Call) (s : State) : State :=
  { s with trace := s.trace ++ [c] }

/-- The call `atexit(s2n_cleanup_atexit)`: the handler is registered exactly
when `atexit` returns `0`. -/
def call_atexit (r : Int) (s : State) : State :=
  { s with trace := s.trace ++ [Call.atexit],
           atexit_registered := if r = 0 then s.atexit_registered + 1 else s.atexit_registered }

/-- Modelled from the spec: the macro `S2N_ERROR` of `error/s2n_errno.h`, a
header that is not among the sources.  A failed registration is fatal and is
reported as an error of its own; in s2n the macro stores its argument in
`s2n_errno` and returns `-1`.  This is the store. -/
def S2N_ERROR (x : Int) (s : State) : State :=
  { s with s2n_errno := x }

/-! ## The functions of `utils/s2n_init.c` -/

/-- Lines 63 to 76 of `s2n_init`: the part after the `#if ... #endif` block.
`S2N_ERROR_IF(c, x)` is `if (c) { S2N_ERROR(x); }`. -/
def s2n_init_common (b : Build) (e : Ext) (s : State) : Int × State :=
  let s := call Call.s2n_rand_init e.s2n_rand_init s
  if GUARD e.s2n_rand_init.ret then (-1, s) else
  let s := call Call.s2n_cipher_suites_init e.s2n_cipher_suites_init s
  if GUARD e.s2n_cipher_suites_init.ret then (-1, s) else
  let s := call Call.s2n_cipher_preferences_init e.s2n_cipher_preferences_init s
  if GUARD e.s2n_cipher_preferences_init.ret then (-1, s) else
  let s := call_atexit e.atexit s
  if e.atexit ≠ 0 then (-1, S2N_ERROR b.S2N_ERR_ATEXIT s) else
  let s := call Call.s2n_is_in_fips_mode e.s2n_is_in_fips_mode s
  let s :=
    if e.s2n_is_in_fips_mode.ret ≠ 0 then
      call Call.s2n_fetch_default_fips_config e.s2n_fetch_default_fips_config s
    else
      call Call.s2n_fetch_default_config e.s2n_fetch_default_config s
  (0, s)

/-- The function `s2n_init` (lines 35 to 77).  The block between `#if` and
`#endif` is present exactly when `b.ENABLE_UNSAFE_AWSLC_ENGINE` is set.  The
argument of the third `GUARD` is the C comparison `1 > OPENSSL_init_crypto(..)`,
whose value is `1` or `0`. -/
def s2n_init (b : Build) (e : Ext) (s : State) : Int × State :=
  let s := call Call.s2n_fips_init e.s2n_fips_init s
  if GUARD e.s2n_fips_init.ret then (-1, s) else
  let s := call Call.s2n_mem_init e.s2n_mem_init s
  if GUARD e.s2n_mem_init.ret then (-1, s) else
  if b.ENABLE_UNSAFE_AWSLC_ENGINE then
    let s := libcall Call.getenv s
    if e.getenv_USE_UNSAFE_AWSLC_ENGINE = none then (-1, s) else
    let s := libcall Call.OPENSSL_init_crypto s
    if GUARD (if 1 > e.OPENSSL_init_crypto then 1 else 0) then (-1, s) else
    s2n_init_common b e s
  else
    s2n_init_common b e s

/-- The function `s2n_cleanup` (lines 79 to 84). -/
def s2n_cleanup (e : Ext) (s : State) : Int × State :=
  let s := call Call.s2n_rand_cleanup_thread e.s2n_rand_cleanup_thread s
  if GUARD e.s2n_rand_cleanup_thread.ret then (-1, s) else
  (0, s)

/-- The function `s2n_cleanup_atexit` (lines 86 to 92); all return values are
discarded. -/
def s2n_cleanup_atexit (e : Ext) (s : State) : State :=
  let s := call Call.s2n_rand_cleanup_thread e.s2n_rand_cleanup_thread s
  let s := call Call.s2n_rand_cleanup e.s2n_rand_cleanup s
  let s := call Call.s2n_mem_cleanup e.s2n_mem_cleanup s
  let s := call Call.s2n_wipe_static_configs e.s2n_wipe_static_configs s
  s

/-! ## Sequences of API calls -/

/-- The two public entry points of the file. -/
inductive Api where
  | init
  | cleanup
  deriving DecidableEq, Repr

/-- One API call with the outcomes of the external routines during it. -/
def api_step (b : Build) (a : Api) (e : Ext) (s : State) : Int × State :=
  match a with
  | Api.init => s2n_init b e s
  | Api.cleanup => s2n_cleanup e s

/-- A sequence of API calls made one after the other by the application; the
result lists the return values in order, with the final state. -/
def run (b : Build) : List (Api × Ext) → State → List Int × State
  | [], s => ([], s)
  | (a, e) :: rest, s =>
    let r := api_step b a e s
    let q := run b rest r.2
    (r.1 :: q.1, q.2)

/-! ## Concrete inputs -/

/-- State of a fresh process: nothing called, nothing registered. -/
def fresh : State := { trace := [], s2n_errno := 0, atexit_registered := 0 }

/-- Outcome of a routine that succeeds: returns `0`, leaves `s2n_errno` alone. -/
def ok : Outcome := { ret := 0, err := none }

/-- Outcomes where every routine succeeds, the toggle variable is unset,
`OPENSSL_init_crypto` returns `1` and the library is not in FIPS mode. -/
def all_ok : Ext :=
  { s2n_fips_init := ok, s2n_mem_init := ok,
    getenv_USE_UNSAFE_AWSLC_ENGINE := none, OPENSSL_init_crypto := 1,
    s2n_rand_init := ok, s2n_cipher_suites_init := ok,
    s2n_cipher_preferences_init := ok, atexit := 0, s2n_is_in_fips_mode := ok,
    s2n_fetch_default_fips_config := { ret := 1, err := none },
    s2n_fetch_default_config := { ret := 1, err := none },
    s2n_rand_cleanup_thread := ok, s2n_rand_cleanup := ok, s2n_mem_cleanup := ok,
    s2n_wipe_static_configs := ok }

/-- A build with the engine block compiled in. -/
def engine_build : Build := { ENABLE_UNSAFE_AWSLC_ENGINE := true, S2N_ERR_ATEXIT := 7 }

/-- A build without the engine block. -/
def plain_build : Build := { ENABLE_UNSAFE_AWSLC_ENGINE := false, S2N_ERR_ATEXIT := 7 }

/-! ## Vocabulary of the properties -/

/-- Calls made between state `s` and a later state `t`. -/
def new_calls (s t : State) : List Call := t.trace.drop s.trace.length

/-- Steps 4 to 8 of initialization in the order fixed by the specification,
each paired with whether its outcome is a failure. -/
def common_steps (e : Ext) : List (Call × Bool) :=
  [(Call.s2n_rand_init, decide (e.s2n_rand_init.ret < 0)),
   (Call.s2n_cipher_suites_init, decide (e.s2n_cipher_suites_init.ret < 0)),
   (Call.s2n_cipher_preferences_init, decide (e.s2n_cipher_preferences_init.ret < 0)),
   (Call.atexit, decide (e.atexit ≠ 0)),
   (Call.s2n_is_in_fips_mode, false),
   (if e.s2n_is_in_fips_mode.ret ≠ 0 then Call.s2n_fetch_default_fips_config
    else Call.s2n_fetch_default_config, false)]

/-- The steps of initialization in the order fixed by the specification, each
paired with whether its outcome is a failure: a subsystem `init` fails when it
returns a negative value, the toggle read fails when the variable is unset, the
engine load fails when `OPENSSL_init_crypto` returns less than `1`, the
registration fails when `atexit` returns non-zero; the pre-fetch (reading the
FIPS mode, then fetching the matching default configuration) cannot fail. -/
def init_steps (b : Build) (e : Ext) : List (Call × Bool) :=
  (Call.s2n_fips_init, decide (e.s2n_fips_init.ret < 0)) ::
  (Call.s2n_mem_init, decide (e.s2n_mem_init.ret < 0)) ::
  (if b.ENABLE_UNSAFE_AWSLC_ENGINE then
     (Call.getenv, decide (e.getenv_USE_UNSAFE_AWSLC_ENGINE = none)) ::
     (Call.OPENSSL_init_crypto, decide (e.OPENSSL_init_crypto < 1)) ::
     common_steps e
   else common_steps e)

/-- The calls of a run that performs the given steps in order and stops right
after the first one that fails. -/
def up_to_first_failure : List (Call × Bool) → List Call
  | [] => []
  | (c, failed) :: rest => c :: (if failed then [] else up_to_first_failure rest)

/-- The cleanup routines, which a rollback would call. -/
def is_cleanup (c : Call) : Bool :=
  c = Call.s2n_rand_cleanup_thread || c = Call.s2n_rand_cleanup
    || c = Call.s2n_mem_cleanup || c = Call.s2n_wipe_static_configs

/-- Whether all five subsystem `init` routines report success. -/
def subsystems_ok (e : Ext) : Prop :=
  0 ≤ e.s2n_fips_init.ret ∧ 0 ≤ e.s2n_mem_init.ret ∧ 0 ≤ e.s2n_rand_init.ret
    ∧ 0 ≤ e.s2n_cipher_suites_init.ret ∧ 0 ≤ e.s2n_cipher_preferences_init.ret

instance (e : Ext) : Decidable (subsystems_ok e) := by
  unfold subsystems_ok
  infer_instance

/-- Outcomes like `all_ok`, with the FIPS detector answering `1`. -/
def fips_outcomes : Ext :=
  { all_ok with s2n_is_in_fips_mode := { ret := 1, err := none } }

/-- Outcomes like `all_ok`, with the toggle variable set and
`OPENSSL_init_crypto` returning `r`. -/
def engine_outcomes (r : Int) : Ext :=
  { all_ok with getenv_USE_UNSAFE_AWSLC_ENGINE := some "1", OPENSSL_init_crypto := r }

/-! ## Projections of the primitive steps -/

@[simp] theorem call_trace (c : Call) (o : Outcome) (s : State) :
    (call c o s).trace = s.trace ++ [c] := rfl

@[simp] theorem call_errno (c : Call) (o : Outcome) (s : State) :
    (call c o s).s2n_errno = o.err.getD s.s2n_errno := rfl

@[simp] theorem call_registered (c : Call) (o : Outcome) (s : State) :
    (call c o s).atexit_registered = s.atexit_registered := rfl

@[simp] theorem libcall_trace (c : Call) (s : State) :
    (libcall c s).trace = s.trace ++ [c] := rfl

@[simp] theorem libcall_errno (c : Call) (s : State) :
    (libcall c s).s2n_errno = s.s2n_errno := rfl

@[simp] theorem libcall_registered (c : Call) (s : State) :
    (libcall c s).atexit_registered = s.atexit_registered := rfl

@[simp] theorem call_atexit_trace (r : Int) (s : State) :
    (call_atexit r s).trace = s.trace ++ [Call.atexit] := rfl

@[simp] theorem call_atexit_errno (r : Int) (s : State) :
    (call_atexit r s).s2n_errno = s.s2n_errno := rfl

@[simp] theorem call_atexit_registered (r : Int) (s : State) :
    (call_atexit r s).atexit_registered
      = if r = 0 then s.atexit_registered + 1 else s.atexit_registered := rfl

@[simp] theorem S2N_ERROR_trace (x : Int) (s : State) :
    (S2N_ERROR x s).trace = s.trace := rfl

@[simp] theorem S2N_ERROR_errno (x : Int) (s : State) :
    (S2N_ERROR x s).s2n_errno = x := rfl

@[simp] theorem S2N_ERROR_registered (x : Int) (s : State) :
    (S2N_ERROR x s).atexit_registered = s.atexit_registered := rfl

theorem new_calls_of_append (s t : State) (l : List Call) (h : t.trace = s.trace ++ l) :
    new_calls s t = l := by
  simp [new_calls, h]

/-! ## General facts about `s2n_init_common` -/

theorem s2n_init_common_trace (b : Build) (e : Ext) (s : State) :
    (s2n_init_common b e s).2.trace = s.trace ++ up_to_first_failure (common_steps e) := by
  unfold s2n_init_common common_steps
  split_ifs <;> simp [up_to_first_failure, *]

theorem s2n_init_common_ret (b : Build) (e : Ext) (s : State) :
    (s2n_init_common b e s).1 =
      if 0 ≤ e.s2n_rand_init.ret ∧ 0 ≤ e.s2n_cipher_suites_init.ret
          ∧ 0 ≤ e.s2n_cipher_preferences_init.ret ∧ e.atexit = 0 then 0 else -1 := by
  unfold s2n_init_common
  split_ifs <;> simp_all <;> omega

theorem s2n_init_common_registered (b : Build) (e : Ext) (s : State) :
    (s2n_init_common b e s).2.atexit_registered =
      s.atexit_registered + if (s2n_init_common b e s).1 = 0 then 1 else 0 := by
  unfold s2n_init_common
  split_ifs <;> simp_all

theorem s2n_init_common_errno (b : Build) (e : Ext) (s : State)
    (h1 : 0 ≤ e.s2n_rand_init.ret) (h2 : 0 ≤ e.s2n_cipher_suites_init.ret)
    (h3 : 0 ≤ e.s2n_cipher_preferences_init.ret) (h4 : e.atexit ≠ 0) :
    (s2n_init_common b e s).2.s2n_errno = b.S2N_ERR_ATEXIT := by
  unfold s2n_init_common
  split_ifs <;> simp_all <;> omega

/-! ## General facts about `s2n_init` -/

/-- The calls of `s2n_init` are the fixed order cut right after the first
failing step, except that the value returned by `OPENSSL_init_crypto` plays no
part: the run is the one of an engine load that succeeded. -/
theorem s2n_init_trace (b : Build) (e : Ext) (s : State) :
    (s2n_init b e s).2.trace
      = s.trace ++ up_to_first_failure (init_steps b { e with OPENSSL_init_crypto := 1 }) := by
  unfold s2n_init init_steps
  split_ifs <;> simp [up_to_first_failure, s2n_init_common_trace, common_steps, *] <;>
    simp [GUARD] at *

/-- Outside the engine-load step the calls of `s2n_init` are exactly the fixed
order cut right after the first failing step. -/
theorem s2n_init_trace_sound (b : Build) (e : Ext) (s : State)
    (h : b.ENABLE_UNSAFE_AWSLC_ENGINE = false ∨ 1 ≤ e.OPENSSL_init_crypto) :
    (s2n_init b e s).2.trace = s.trace ++ up_to_first_failure (init_steps b e) := by
  unfold s2n_init init_steps
  split_ifs <;> simp [up_to_first_failure, s2n_init_common_trace, *]
  all_goals simp_all
  all_goals omega

theorem up_to_first_failure_subset (l : List (Call × Bool)) :
    ∀ c ∈ up_to_first_failure l, c ∈ l.map Prod.fst := by
  induction l with
  | nil => simp [up_to_first_failure]
  | cons a l ih =>
    obtain ⟨c0, f⟩ := a
    intro c hc
    simp only [up_to_first_failure, List.mem_cons] at hc
    rcases hc with rfl | hc
    · simp
    · split_ifs at hc
      · simp at hc
      · simp [ih c hc]

/-- No cleanup routine occurs among the steps of initialization. -/
theorem up_to_first_failure_no_cleanup (b : Build) (e : Ext) :
    ∀ c ∈ up_to_first_failure (init_steps b e), is_cleanup c = false := by
  intro c hc
  have h := up_to_first_failure_subset _ c hc
  unfold init_steps common_steps at h
  split_ifs at h <;> cases c <;> simp_all [is_cleanup]

theorem s2n_init_ret (b : Build) (e : Ext) (s : State) :
    (s2n_init b e s).1 =
      if subsystems_ok e ∧ e.atexit = 0
          ∧ (b.ENABLE_UNSAFE_AWSLC_ENGINE = true → e.getenv_USE_UNSAFE_AWSLC_ENGINE ≠ none)
      then 0 else -1 := by
  unfold s2n_init subsystems_ok
  split_ifs <;> simp_all [s2n_init_common_ret] <;> omega

theorem s2n_init_registered (b : Build) (e : Ext) (s : State) :
    (s2n_init b e s).2.atexit_registered =
      s.atexit_registered + if (s2n_init b e s).1 = 0 then 1 else 0 := by
  unfold s2n_init
  split_ifs <;> simp_all [s2n_init_common_registered]

/-- The argument of the third `GUARD` is `0` or `1`, so this `GUARD` never
returns. -/
theorem GUARD_comparison (x : Int) : ¬ GUARD (if 1 > x then 1 else 0) := by
  unfold GUARD
  split_ifs <;> omega

/-- The value returned by `OPENSSL_init_crypto` has no influence on `s2n_init`. -/
theorem s2n_init_engine_load_irrelevant (b : Build) (e : Ext) (s : State) (r : Int) :
    s2n_init b { e with OPENSSL_init_crypto := r } s = s2n_init b e s := by
  have hc : ∀ t, s2n_init_common b { e with OPENSSL_init_crypto := r } t
      = s2n_init_common b e t := fun _ => rfl
  unfold s2n_init
  simp only [hc, GUARD_comparison, if_false]

theorem s2n_init_new_calls (b : Build) (e : Ext) (s : State) :
    new_calls s (s2n_init b e s).2
      = up_to_first_failure (init_steps b { e with OPENSSL_init_crypto := 1 }) :=
  new_calls_of_append _ _ _ (s2n_init_trace b e s)

/-! ## Order of the calls of `s2n_init` -/

/-- C1, evaluated on an engine build where the toggle is set, every s2n
routine succeeds and `OPENSSL_init_crypto` returns `0` (failure): the fixed
order cut at the first failing step ends with the engine load, but `s2n_init`
goes on through random init, both cipher inits, the registration and the
pre-fetch.  No cleanup routine is called. -/
theorem s2n_init_runs_past_failed_engine_load :
    up_to_first_failure (init_steps engine_build (engine_outcomes 0))
      = [Call.s2n_fips_init, Call.s2n_mem_init, Call.getenv, Call.OPENSSL_init_crypto]
    ∧ new_calls fresh (s2n_init engine_build (engine_outcomes 0) fresh).2
      = [Call.s2n_fips_init, Call.s2n_mem_init, Call.getenv, Call.OPENSSL_init_crypto,
         Call.s2n_rand_init, Call.s2n_cipher_suites_init, Call.s2n_cipher_preferences_init,
         Call.atexit, Call.s2n_is_in_fips_mode, Call.s2n_fetch_default_config] := by
  constructor
  · decide
  · decide

/-! ## The engine toggle -/

/-- C3, evaluated on an engine build with the toggle set and every s2n routine
succeeding: whatever `OPENSSL_init_crypto` returns, also a value below `1`,
`s2n_init` returns `0` after running every later step and registering the exit
hook. -/
theorem s2n_init_ignores_engine_load_result (r : Int) :
    s2n_init engine_build (engine_outcomes r) fresh
      = (0, { trace := [Call.s2n_fips_init, Call.s2n_mem_init, Call.getenv,
                        Call.OPENSSL_init_crypto, Call.s2n_rand_init,
                        Call.s2n_cipher_suites_init, Call.s2n_cipher_preferences_init,
                        Call.atexit, Call.s2n_is_in_fips_mode, Call.s2n_fetch_default_config],
              s2n_errno := 0, atexit_registered := 1 }) := by
  have h : engine_outcomes r = { engine_outcomes 1 with OPENSSL_init_crypto := r } := rfl
  rw [h, s2n_init_engine_load_irrelevant]
  decide

/-! ## Result of `s2n_init` -/

/-- C4: without the engine block, `s2n_init` returns `0` exactly when the five
subsystem inits succeed and `atexit` returns `0`, and `-1` otherwise; when the
inits succeed and only the registration fails, `s2n_errno` is
`S2N_ERR_ATEXIT`; the FIPS mode read and the outcome of either pre-fetch do not
change the returned value. -/
theorem s2n_init_result_without_engine (b : Build) (e : Ext) (s : State)
    (hb : b.ENABLE_UNSAFE_AWSLC_ENGINE = false) :
    ((s2n_init b e s).1 = 0 ↔ subsystems_ok e ∧ e.atexit = 0)
    ∧ (¬ (subsystems_ok e ∧ e.atexit = 0) → (s2n_init b e s).1 = -1)
    ∧ (subsystems_ok e → e.atexit ≠ 0 → (s2n_init b e s).2.s2n_errno = b.S2N_ERR_ATEXIT)
    ∧ (∀ (m f g : Outcome),
        (s2n_init b { e with s2n_is_in_fips_mode := m, s2n_fetch_default_fips_config := f,
                             s2n_fetch_default_config := g } s).1 = (s2n_init b e s).1) := by
  refine ⟨?_, ?_, ?_, ?_⟩
  · rw [s2n_init_ret]
    simp [hb]
  · intro h
    rw [s2n_init_ret]
    simp only [hb, Bool.false_eq_true, false_implies, and_true]
    rw [if_neg h]
  · intro hs ha
    obtain ⟨h1, h2, h3, h4, h5⟩ := hs
    unfold s2n_init
    simp only [hb, GUARD, not_lt.mpr h1, not_lt.mpr h2, if_false, Bool.false_eq_true]
    exact s2n_init_common_errno b e _ h3 h4 h5 ha
  · intro m f g
    rw [s2n_init_ret, s2n_init_ret]
    rfl

/-- Witness for `s2n_init_result_without_engine`: a build without the engine
block in which every routine succeeds except `atexit`, which returns `1`. -/
theorem s2n_init_result_without_engine_witness :
    ((s2n_init plain_build { all_ok with atexit := 1 } fresh).1 = -1)
    ∧ (s2n_init plain_build { all_ok with atexit := 1 } fresh).2.s2n_errno
        = plain_build.S2N_ERR_ATEXIT :=
  ⟨(s2n_init_result_without_engine plain_build { all_ok with atexit := 1 } fresh rfl).2.1
      (by decide),
   (s2n_init_result_without_engine plain_build { all_ok with atexit := 1 } fresh rfl).2.2.1
      (by decide) (by decide)⟩

/-! ## Pre-fetch of the default configuration -/

/-- C5: when `s2n_init` returns `0`, its calls end with the registration, the
read of the FIPS mode and one fetch, of the FIPS default when the mode read is
non-zero and of the standard default otherwise; the matching configuration is
fetched once, the other one never, and the hook has been registered. -/
theorem s2n_init_prefetch_matches_fips_mode (b : Build) (e : Ext) (s : State)
    (h : (s2n_init b e s).1 = 0) :
    new_calls s (s2n_init b e s).2
      = [Call.s2n_fips_init, Call.s2n_mem_init]
        ++ (if b.ENABLE_UNSAFE_AWSLC_ENGINE = true
            then [Call.getenv, Call.OPENSSL_init_crypto] else [])
        ++ [Call.s2n_rand_init, Call.s2n_cipher_suites_init,
            Call.s2n_cipher_preferences_init, Call.atexit, Call.s2n_is_in_fips_mode,
            if e.s2n_is_in_fips_mode.ret ≠ 0 then Call.s2n_fetch_default_fips_config
            else Call.s2n_fetch_default_config]
    ∧ (new_calls s (s2n_init b e s).2).count Call.s2n_fetch_default_fips_config
        = (if e.s2n_is_in_fips_mode.ret ≠ 0 then 1 else 0)
    ∧ (new_calls s (s2n_init b e s).2).count Call.s2n_fetch_default_config
        = (if e.s2n_is_in_fips_mode.ret ≠ 0 then 0 else 1)
    ∧ (s2n_init b e s).2.atexit_registered = s.atexit_registered + 1 := by
  have hreg := s2n_init_registered b e s
  rw [h] at hreg
  rw [s2n_init_ret] at h
  have hc : subsystems_ok e ∧ e.atexit = 0
      ∧ (b.ENABLE_UNSAFE_AWSLC_ENGINE = true → e.getenv_USE_UNSAFE_AWSLC_ENGINE ≠ none) := by
    by_contra hn
    rw [if_neg hn] at h
    omega
  obtain ⟨⟨h1, h2, h3, h4, h5⟩, h6, h7⟩ := hc
  have hcalls : new_calls s (s2n_init b e s).2
      = [Call.s2n_fips_init, Call.s2n_mem_init]
        ++ (if b.ENABLE_UNSAFE_AWSLC_ENGINE = true
            then [Call.getenv, Call.OPENSSL_init_crypto] else [])
        ++ [Call.s2n_rand_init, Call.s2n_cipher_suites_init,
            Call.s2n_cipher_preferences_init, Call.atexit, Call.s2n_is_in_fips_mode,
            if e.s2n_is_in_fips_mode.ret ≠ 0 then Call.s2n_fetch_default_fips_config
            else Call.s2n_fetch_default_config] := by
    rw [s2n_init_new_calls]
    unfold init_steps common_steps
    cases hb : b.ENABLE_UNSAFE_AWSLC_ENGINE
    · simp [up_to_first_failure, not_lt.mpr h1, not_lt.mpr h2, not_lt.mpr h3, not_lt.mpr h4,
        not_lt.mpr h5, h6]
    · simp [up_to_first_failure, not_lt.mpr h1, not_lt.mpr h2, not_lt.mpr h3, not_lt.mpr h4,
        not_lt.mpr h5, h6, h7 hb]
  refine ⟨hcalls, ?_, ?_, by simpa using hreg⟩
  · rw [hcalls]
    split_ifs <;> decide
  · rw [hcalls]
    split_ifs <;> decide

/-- Witness for `s2n_init_prefetch_matches_fips_mode`: a build without the
engine block, every routine succeeding, the FIPS detector answering `1`. -/
theorem s2n_init_prefetch_matches_fips_mode_witness :
    (s2n_init plain_build fips_outcomes fresh).1 = 0
    ∧ (new_calls fresh
        (s2n_init plain_build fips_outcomes fresh).2).count
          Call.s2n_fetch_default_fips_config = 1
    ∧ (new_calls fresh
        (s2n_init plain_build fips_outcomes fresh).2).count
          Call.s2n_fetch_default_config = 0 :=
  ⟨by decide,
   (s2n_init_prefetch_matches_fips_mode plain_build
      fips_outcomes fresh (by decide)).2.1,
   (s2n_init_prefetch_matches_fips_mode plain_build
      fips_outcomes fresh (by decide)).2.2.1⟩

/-! ## Explicit shutdown and the exit hook -/

theorem s2n_cleanup_eq (e : Ext) (s : State) :
    s2n_cleanup e s
      = (if e.s2n_rand_cleanup_thread.ret < 0 then -1 else 0,
         call Call.s2n_rand_cleanup_thread e.s2n_rand_cleanup_thread s) := by
  unfold s2n_cleanup
  split_ifs <;> rfl

/-- C6: any number of consecutive calls of `s2n_cleanup` call nothing but
`s2n_rand_cleanup_thread`, once per call; each call returns `-1` exactly when
that routine reports failure and `0` otherwise; the registrations of the exit
hook are left as they were. -/
theorem s2n_cleanup_only_thread_cleanup (b : Build) (es : List Ext) (s : State) :
    (run b (es.map (fun e => (Api.cleanup, e))) s).1
      = es.map (fun e => if e.s2n_rand_cleanup_thread.ret < 0 then -1 else 0)
    ∧ new_calls s (run b (es.map (fun e => (Api.cleanup, e))) s).2
      = List.replicate es.length Call.s2n_rand_cleanup_thread
    ∧ (run b (es.map (fun e => (Api.cleanup, e))) s).2.atexit_registered
      = s.atexit_registered := by
  have key : ∀ (es : List Ext) (s : State),
      (run b (es.map (fun e => (Api.cleanup, e))) s).1
        = es.map (fun e => if e.s2n_rand_cleanup_thread.ret < 0 then -1 else 0)
      ∧ (run b (es.map (fun e => (Api.cleanup, e))) s).2.trace
        = s.trace ++ List.replicate es.length Call.s2n_rand_cleanup_thread
      ∧ (run b (es.map (fun e => (Api.cleanup, e))) s).2.atexit_registered
        = s.atexit_registered := by
    intro es
    induction es with
    | nil => intro s; simp [run]
    | cons e es ih =>
      intro s
      obtain ⟨h1, h2, h3⟩ := ih (call Call.s2n_rand_cleanup_thread e.s2n_rand_cleanup_thread s)
      simp only [List.map_cons, run, api_step, s2n_cleanup_eq]
      refine ⟨?_, ?_, ?_⟩
      · rw [h1]
      · rw [h2]
        simp [List.replicate_succ]
      · rw [h3]
        simp
  obtain ⟨h1, h2, h3⟩ := key es s
  exact ⟨h1, new_calls_of_append _ _ _ h2, h3⟩

/-- C7: `s2n_cleanup_atexit` makes exactly four calls, whatever each of them
returns: thread-local random cleanup, random cleanup, memory cleanup, wipe of
the static configs, in this order. -/
theorem s2n_cleanup_atexit_order (e : Ext) (s : State) :
    new_calls s (s2n_cleanup_atexit e s)
      = [Call.s2n_rand_cleanup_thread, Call.s2n_rand_cleanup, Call.s2n_mem_cleanup,
         Call.s2n_wipe_static_configs] := by
  apply new_calls_of_append
  simp [s2n_cleanup_atexit]

/-! ## Registration of the exit hook and repeated initialization -/

theorem run_length (b : Build) (calls : List (Api × Ext)) :
    ∀ s : State, (run b calls s).1.length = calls.length := by
  induction calls with
  | nil => intro s; rfl
  | cons a calls ih =>
    intro s
    obtain ⟨a, e⟩ := a
    simp [run, ih]

theorem api_step_registered (b : Build) (a : Api) (e : Ext) (s : State) :
    (api_step b a e s).2.atexit_registered
      = s.atexit_registered + if (a, (api_step b a e s).1) = (Api.init, (0 : Int)) then 1 else 0 := by
  cases a
  · simp only [api_step, s2n_init_registered]
    split_ifs <;> simp_all
  · simp [api_step, s2n_cleanup_eq]

/-- C8, the claim as stated fails: two calls of `s2n_init` in which every
routine succeeds both return `0` and leave two registrations of the exit
hook. -/
theorem s2n_init_twice_registers_twice :
    run plain_build [(Api.init, all_ok), (Api.init, all_ok)] fresh
      = ([0, 0],
         { trace := [Call.s2n_fips_init, Call.s2n_mem_init, Call.s2n_rand_init,
                     Call.s2n_cipher_suites_init, Call.s2n_cipher_preferences_init,
                     Call.atexit, Call.s2n_is_in_fips_mode, Call.s2n_fetch_default_config,
                     Call.s2n_fips_init, Call.s2n_mem_init, Call.s2n_rand_init,
                     Call.s2n_cipher_suites_init, Call.s2n_cipher_preferences_init,
                     Call.atexit, Call.s2n_is_in_fips_mode, Call.s2n_fetch_default_config],
           s2n_errno := 0, atexit_registered := 2 }) := by
  decide

/-- C8 as amended: over any sequence of calls of `s2n_init` and `s2n_cleanup`
the number of registrations of the exit hook grows by the number of calls of
`s2n_init` that returned `0`, hence by at most the number of calls of
`s2n_init`; one call of `s2n_init` registers at most once, and only when the
five subsystem inits succeeded; `s2n_cleanup` registers nothing. -/
theorem s2n_atexit_registrations (b : Build) (calls : List (Api × Ext)) (s : State) :
    (run b calls s).2.atexit_registered
      = s.atexit_registered
        + ((calls.map Prod.fst).zip (run b calls s).1).count (Api.init, (0 : Int))
    ∧ (run b calls s).2.atexit_registered
      ≤ s.atexit_registered + (calls.map Prod.fst).count Api.init
    ∧ (∀ (e : Ext) (t : State),
        (s2n_init b e t).2.atexit_registered ≤ t.atexit_registered + 1)
    ∧ (∀ (e : Ext) (t : State),
        (s2n_init b e t).2.atexit_registered ≠ t.atexit_registered → subsystems_ok e)
    ∧ (∀ (e : Ext) (t : State),
        (s2n_cleanup e t).2.atexit_registered = t.atexit_registered) := by
  have key : ∀ (calls : List (Api × Ext)) (s : State),
      (run b calls s).2.atexit_registered
        = s.atexit_registered
          + ((calls.map Prod.fst).zip (run b calls s).1).count (Api.init, (0 : Int)) := by
    intro calls
    induction calls with
    | nil => intro s; simp [run]
    | cons a calls ih =>
      intro s
      obtain ⟨a, e⟩ := a
      simp only [run, List.map_cons, List.zip_cons_cons, List.count_cons, ih,
        api_step_registered b a e s, beq_iff_eq]
      omega
  have hcount : ((calls.map Prod.fst).zip (run b calls s).1).count (Api.init, (0 : Int))
      ≤ (calls.map Prod.fst).count Api.init := by
    have hmap : ((calls.map Prod.fst).zip (run b calls s).1).map Prod.fst
        = calls.map Prod.fst := by
      apply List.map_fst_zip
      simp [run_length]
    calc ((calls.map Prod.fst).zip (run b calls s).1).count (Api.init, (0 : Int))
        ≤ (((calls.map Prod.fst).zip (run b calls s).1).map Prod.fst).count Api.init :=
          List.count_le_count_map _ Prod.fst (Api.init, (0 : Int))
      _ = (calls.map Prod.fst).count Api.init := by rw [hmap]
  refine ⟨key calls s, ?_, ?_, ?_, ?_⟩
  · rw [key calls s]
    omega
  · intro e t
    rw [s2n_init_registered]
    split_ifs <;> omega
  · intro e t h
    rw [s2n_init_registered] at h
    have h0 : (s2n_init b e t).1 = 0 := by
      by_contra hn
      rw [if_neg hn] at h
      exact h rfl
    rw [s2n_init_ret] at h0
    by_contra hn
    rw [if_neg (fun hc => hn hc.1)] at h0
    omega
  · intro e t
    simp [s2n_cleanup_eq]

/-- Witness for `s2n_atexit_registrations`: one call of `s2n_init` in which
`s2n_rand_init` fails leaves the registrations unchanged, and one in which
every routine succeeds adds a registration. -/
theorem s2n_atexit_registrations_witness :
    (run plain_build [(Api.init, { all_ok with s2n_rand_init := { ret := -1, err := none } }),
        (Api.cleanup, all_ok), (Api.init, all_ok)] fresh).2.atexit_registered = 0 + 1
    ∧ subsystems_ok all_ok :=
  ⟨(s2n_atexit_registrations plain_build
      [(Api.init, { all_ok with s2n_rand_init := { ret := -1, err := none } }),
        (Api.cleanup, all_ok), (Api.init, all_ok)] fresh).1,
   (s2n_atexit_registrations plain_build [] fresh).2.2.2.1 all_ok fresh (by decide)⟩

/-- C10, the claim as stated fails: in a build without the engine block the
toggle variable may be set and `s2n_init` still returns `0`. -/
theorem s2n_init_toggle_set_without_engine :
    (s2n_init plain_build
      { all_ok with getenv_USE_UNSAFE_AWSLC_ENGINE := some "1" } fresh).1 = 0 := by
  decide

/-- C10 as amended: with the engine block compiled in and the toggle variable
unset `s2n_init` returns `-1`; without the engine block the variable is never
read, `s2n_init` behaves the same whether it is set or not, and whatever the
variable holds it returns `0` exactly when the five subsystem inits succeed and
`atexit` returns `0`. -/
theorem s2n_init_toggle_agreement (b : Build) (e : Ext) (s : State) :
    (b.ENABLE_UNSAFE_AWSLC_ENGINE = true → e.getenv_USE_UNSAFE_AWSLC_ENGINE = none →
      (s2n_init b e s).1 = -1)
    ∧ (b.ENABLE_UNSAFE_AWSLC_ENGINE = false →
        Call.getenv ∉ new_calls s (s2n_init b e s).2
        ∧ (∀ v : Option String,
            s2n_init b { e with getenv_USE_UNSAFE_AWSLC_ENGINE := v } s = s2n_init b e s)
        ∧ (∀ v : Option String,
            (s2n_init b { e with getenv_USE_UNSAFE_AWSLC_ENGINE := v } s).1 = 0
              ↔ subsystems_ok e ∧ e.atexit = 0)) := by
  constructor
  · intro hb hg
    rw [s2n_init_ret]
    simp [hb, hg]
  · intro hb
    refine ⟨?_, ?_, ?_⟩
    · rw [s2n_init_new_calls]
      intro hm
      have h := up_to_first_failure_subset _ _ hm
      unfold init_steps common_steps at h
      simp only [hb, Bool.false_eq_true, if_false] at h
      split_ifs at h <;> simp at h
    · intro v
      have hc : ∀ t, s2n_init_common b { e with getenv_USE_UNSAFE_AWSLC_ENGINE := v } t
          = s2n_init_common b e t := fun _ => rfl
      unfold s2n_init
      simp only [hb, hc, Bool.false_eq_true, if_false]
    · intro v
      have hs : subsystems_ok { e with getenv_USE_UNSAFE_AWSLC_ENGINE := v }
          ↔ subsystems_ok e := Iff.rfl
      rw [s2n_init_ret]
      simp [hb, hs]

/-- Witness for `s2n_init_toggle_agreement`: an engine build with the variable
unset fails, and a build without the engine block with the variable set and
every routine succeeding behaves as with the variable unset and returns `0`. -/
theorem s2n_init_toggle_agreement_witness :
    (s2n_init engine_build all_ok fresh).1 = -1
    ∧ s2n_init plain_build { all_ok with getenv_USE_UNSAFE_AWSLC_ENGINE := some "1" } fresh
        = s2n_init plain_build all_ok fresh
    ∧ (s2n_init plain_build
        { all_ok with getenv_USE_UNSAFE_AWSLC_ENGINE := some "1" } fresh).1 = 0 :=
  ⟨(s2n_init_toggle_agreement engine_build all_ok fresh).1 rfl rfl,
   ((s2n_init_toggle_agreement plain_build all_ok fresh).2 rfl).2.1 (some "1"),
   (((s2n_init_toggle_agreement plain_build all_ok fresh).2 rfl).2.2 (some "1")).mpr
     (by decide)⟩

end S2N
